import Mathlib

/-!
Verification of the Draw Context recording/snapshot pipeline
(`experimental/graphite/src/DrawContext.cpp`) and of the runtime-shader DSL
teardown helper (`src/sksl/dsl/DSLRuntimeEffects.cpp`).

The Draw Context orchestrator is embedded directly from the source.  Its
collaborators (Draw List, Draw Pass, Render-Pass Task, target proxy, culling
oracle) live in files that are not part of this snapshot, so they are modelled
from the specification's interface contracts, as noted on each definition.
-/

namespace skgpu

/-- Parameter type for local-to-device transforms; opaque to the Draw Context,
which only forwards it. -/
structure Transform where
  id : Nat
deriving DecidableEq, Repr

/-- Parameter type for recorded geometry; opaque to the Draw Context. -/
structure Shape where
  id : Nat
deriving DecidableEq, Repr

/-- Clip/scissor rectangle; opaque to the Draw Context. -/
structure SkIRect where
  l : Int
  t : Int
  r : Int
  b : Int
deriving DecidableEq, Repr

/-- Draw order (z/priority value); opaque to the Draw Context. -/
structure DrawOrder where
  id : Nat
deriving DecidableEq, Repr

/-- Paint parameters; passed as a nullable pointer, hence wrapped in
`Option` where it is recorded. -/
structure PaintParams where
  id : Nat
deriving DecidableEq, Repr

/-- Stroke parameters (width, joins, caps, ...); opaque to the Draw Context. -/
structure StrokeParams where
  id : Nat
deriving DecidableEq, Repr

/-- Color space; reference-counted and nullable in the source, hence wrapped
in `Option` where it may be null. -/
structure SkColorSpace where
  id : Nat
deriving DecidableEq, Repr

/-- Color type enumeration value. -/
structure SkColorType where
  val : Nat
deriving DecidableEq, Repr

/-- Alpha type enumeration value. -/
structure SkAlphaType where
  val : Nat
deriving DecidableEq, Repr

/-- Integer pixel dimensions of a target. -/
structure SkISize where
  width : Int
  height : Int
deriving DecidableEq, Repr

/-- Modelled from the spec: the render-target descriptor (`TextureProxy`, not
under the snapshot) must expose pixel dimensions; nothing else is consumed by
this core. -/
structure TextureProxy where
  dimensions : SkISize
deriving DecidableEq, Repr

/-- Modelled from the spec: the occlusion-culling oracle (`BoundsManager`, not
under the snapshot) is an opaque collaborator passed through unmodified. -/
structure BoundsManager where
  id : Nat
deriving DecidableEq, Repr

/-- Image description combining dimensions with color space/type/alpha type,
as produced by `SkImageInfo::Make`. -/
structure SkImageInfo where
  dimensions : SkISize
  colorType : SkColorType
  alphaType : SkAlphaType
  colorSpace : Option SkColorSpace
deriving DecidableEq, Repr

/-- `SkImageInfo::Make(dimensions, colorType, alphaType, colorSpace)`. -/
def SkImageInfo.Make (dimensions : SkISize) (colorType : SkColorType)
    (alphaType : SkAlphaType) (colorSpace : Option SkColorSpace) : SkImageInfo :=
  ⟨dimensions, colorType, alphaType, colorSpace⟩

/-- One recorded draw operation, tagged with which recording entry point
produced it, carrying that entry point's arguments. -/
inductive DrawOp where
  | stencilAndFillPath (localToDevice : Transform) (shape : Shape)
      (scissor : SkIRect) (order : DrawOrder) (paint : Option PaintParams)
  | fillConvexPath (localToDevice : Transform) (shape : Shape)
      (scissor : SkIRect) (order : DrawOrder) (paint : Option PaintParams)
  | strokePath (localToDevice : Transform) (shape : Shape)
      (stroke : StrokeParams) (scissor : SkIRect) (order : DrawOrder)
      (paint : Option PaintParams)
deriving DecidableEq, Repr

/-- Modelled from the spec: the Draw List (`DrawList`, not under the snapshot)
is a mutable, append-only buffer of recorded draw operations exposing a count
of recorded operations. -/
structure DrawList where
  ops : List DrawOp
deriving DecidableEq, Repr

/-- A fresh, empty Draw List, as produced by `std::make_unique<DrawList>()`. -/
def DrawList.empty : DrawList := ⟨[]⟩

/-- Modelled from the spec: `DrawList` exposes a count of recorded operations. -/
def DrawList.count (dl : DrawList) : Nat := dl.ops.length

/-- Modelled from the spec: append-stencil-fill(transform, shape, scissor,
order, paint) on the Draw List. -/
def DrawList.stencilAndFillPath (dl : DrawList) (localToDevice : Transform)
    (shape : Shape) (scissor : SkIRect) (order : DrawOrder)
    (paint : Option PaintParams) : DrawList :=
  ⟨dl.ops ++ [DrawOp.stencilAndFillPath localToDevice shape scissor order paint]⟩

/-- Modelled from the spec: append-fill-convex(transform, shape, scissor,
order, paint) on the Draw List. -/
def DrawList.fillConvexPath (dl : DrawList) (localToDevice : Transform)
    (shape : Shape) (scissor : SkIRect) (order : DrawOrder)
    (paint : Option PaintParams) : DrawList :=
  ⟨dl.ops ++ [DrawOp.fillConvexPath localToDevice shape scissor order paint]⟩

/-- Modelled from the spec: append-stroke(transform, shape, stroke, scissor,
order, paint) on the Draw List. -/
def DrawList.strokePath (dl : DrawList) (localToDevice : Transform)
    (shape : Shape) (stroke : StrokeParams) (scissor : SkIRect)
    (order : DrawOrder) (paint : Option PaintParams) : DrawList :=
  ⟨dl.ops ++ [DrawOp.strokePath localToDevice shape stroke scissor order paint]⟩

/-- Modelled from the spec: a Draw Pass (`DrawPass`, not under the snapshot)
is an immutable snapshot built by consuming one Draw List together with the
target reference and the culling oracle; it preserves what it was built
from. -/
structure DrawPass where
  srcOps : List DrawOp
  target : TextureProxy
  oracle : BoundsManager
deriving DecidableEq, Repr

/-- Modelled from the spec: `DrawPass::Make` is a factory taking (owned Draw
List, target reference, culling oracle) to one immutable Draw Pass. -/
def DrawPass.Make (list : DrawList) (target : TextureProxy)
    (oracle : BoundsManager) : DrawPass :=
  ⟨list.ops, target, oracle⟩

/-- Modelled from the spec: a Render-Pass Task (`RenderPassTask`, not under
the snapshot) is an immutable bundle of Draw Passes in the exact order they
were produced. -/
structure RenderPassTask where
  passes : List DrawPass
deriving DecidableEq, Repr

/-- Modelled from the spec: `RenderPassTask::Make` is a factory consuming an
ordered sequence of owned Draw Passes. -/
def RenderPassTask.Make (passes : List DrawPass) : RenderPassTask :=
  ⟨passes⟩

/-- The Draw Context state: owned target, image description, pending Draw
List and ordered pass sequence, mirroring the fields of
`skgpu::DrawContext`. -/
structure DrawContext where
  fTarget : TextureProxy
  fImageInfo : SkImageInfo
  fPendingDraws : DrawList
  fDrawPasses : List DrawPass
deriving DecidableEq, Repr

/-- `DrawContext::Make(target, colorSpace, colorType, alphaType)`: rejects a
null target, otherwise builds the image description from the target's
dimensions and the supplied color arguments and constructs a context with a
fresh empty pending Draw List and no passes. -/
def DrawContext.Make (target : Option TextureProxy)
    (colorSpace : Option SkColorSpace) (colorType : SkColorType)
    (alphaType : SkAlphaType) : Option DrawContext :=
  match target with
  | none => none
  | some t =>
      some { fTarget := t
             fImageInfo := SkImageInfo.Make t.dimensions colorType alphaType colorSpace
             fPendingDraws := DrawList.empty
             fDrawPasses := [] }

/-- `DrawContext::stencilAndFillPath`: forwards to the pending Draw List. -/
def DrawContext.stencilAndFillPath (dc : DrawContext) (localToDevice : Transform)
    (shape : Shape) (scissor : SkIRect) (order : DrawOrder)
    (paint : Option PaintParams) : DrawContext :=
  { dc with fPendingDraws :=
      dc.fPendingDraws.stencilAndFillPath localToDevice shape scissor order paint }

/-- `DrawContext::fillConvexPath`: forwards to the pending Draw List. -/
def DrawContext.fillConvexPath (dc : DrawContext) (localToDevice : Transform)
    (shape : Shape) (scissor : SkIRect) (order : DrawOrder)
    (paint : Option PaintParams) : DrawContext :=
  { dc with fPendingDraws :=
      dc.fPendingDraws.fillConvexPath localToDevice shape scissor order paint }

/-- `DrawContext::strokePath`: forwards to the pending Draw List. -/
def DrawContext.strokePath (dc : DrawContext) (localToDevice : Transform)
    (shape : Shape) (stroke : StrokeParams) (scissor : SkIRect)
    (order : DrawOrder) (paint : Option PaintParams) : DrawContext :=
  { dc with fPendingDraws :=
      dc.fPendingDraws.strokePath localToDevice shape stroke scissor order paint }

/-- `DrawContext::snapDrawPass(occlusionCuller)`: a no-op when the pending
list is empty; otherwise hands the pending list, the target and the oracle to
`DrawPass::Make`, appends the pass at the end of the pass sequence, and
replaces the pending list with a fresh empty one. -/
def DrawContext.snapDrawPass (dc : DrawContext)
    (occlusionCuller : BoundsManager) : DrawContext :=
  if dc.fPendingDraws.count = 0 then
    dc
  else
    { dc with
      fDrawPasses :=
        dc.fDrawPasses ++ [DrawPass.Make dc.fPendingDraws dc.fTarget occlusionCuller]
      fPendingDraws := DrawList.empty }

/-- `DrawContext::snapRenderPassTask(occlusionCuller)`: forces a final
`snapDrawPass`; returns no task if the pass sequence is still empty, else
moves the whole pass sequence into `RenderPassTask::Make` (leaving it empty)
and returns the task.  The pair is (returned task, post-state). -/
def DrawContext.snapRenderPassTask (dc : DrawContext)
    (occlusionCuller : BoundsManager) : Option RenderPassTask × DrawContext :=
  let dc1 := dc.snapDrawPass occlusionCuller
  if dc1.fDrawPasses.isEmpty then
    (none, dc1)
  else
    (some (RenderPassTask.Make dc1.fDrawPasses), { dc1 with fDrawPasses := [] })

/-- The destructor's `SkASSERT` pair: pending count is zero and the pass
sequence is empty.  Destroying a context on which this is `false` is the
fatal programming-error path. -/
def DrawContext.destructorAssertsHold (dc : DrawContext) : Bool :=
  dc.fPendingDraws.count == 0 && dc.fDrawPasses.isEmpty

/-- Dispatch a single recorded operation to the matching recording entry
point; used to quantify over arbitrary sequences of recording calls. -/
def DrawContext.record (dc : DrawContext) : DrawOp → DrawContext
  | DrawOp.stencilAndFillPath l s sc o p => dc.stencilAndFillPath l s sc o p
  | DrawOp.fillConvexPath l s sc o p => dc.fillConvexPath l s sc o p
  | DrawOp.strokePath l s st sc o p => dc.strokePath l s st sc o p

/-- Apply a sequence of recording calls in order. -/
def DrawContext.recordAll (dc : DrawContext) : List DrawOp → DrawContext
  | [] => dc
  | op :: rest => (dc.record op).recordAll rest

end skgpu

namespace SkSL

/-- A finished SkSL program, as released from the thread-local DSL context;
opaque to the teardown helper. -/
structure Program where
  id : Nat
deriving DecidableEq, Repr

/-- A compiled runtime effect; opaque to the teardown helper. -/
structure SkRuntimeEffect where
  id : Nat
deriving DecidableEq, Repr

/-- Runtime-effect construction options (`SkRuntimeEffect::Options`); passed
through unmodified. -/
structure SkRuntimeEffect.Options where
  id : Nat
deriving DecidableEq, Repr

namespace dsl

/-- Calls `EndRuntimeShader` makes on its collaborators, in order; used to
observe which paths invoke the thread-local context teardown `End()`. -/
inductive DSLCall where
  | releaseProgram
  | reportErrors
  | makeForShader
  | endContext
deriving DecidableEq, Repr

/-- `EndRuntimeShader(options)`: releases the DSL program, reports pending
errors, builds a runtime effect only when a program was produced (the
`MakeForShader` collaborator is abstracted as a function argument, and may
itself return null), then calls `End()` and returns the result.  Returns the
effect handle together with the ordered trace of collaborator calls. -/
def EndRuntimeShader (releasedProgram : Option Program)
    (makeForShader : Program → SkRuntimeEffect.Options → Option SkRuntimeEffect)
    (options : SkRuntimeEffect.Options) :
    Option SkRuntimeEffect × List DSLCall :=
  let result : Option SkRuntimeEffect :=
    match releasedProgram with
    | some program => makeForShader program options
    | none => none
  let calls : List DSLCall :=
    [DSLCall.releaseProgram, DSLCall.reportErrors] ++
      (match releasedProgram with
       | some _ => [DSLCall.makeForShader]
       | none => []) ++
      [DSLCall.endContext]
  (result, calls)

end dsl

end SkSL

namespace skgpu

theorem DrawContext.record_eq (dc : DrawContext) (op : DrawOp) :
    dc.record op = { dc with fPendingDraws := ⟨dc.fPendingDraws.ops ++ [op]⟩ } := by
  cases op <;> rfl

theorem DrawContext.recordAll_eq (ops : List DrawOp) (dc : DrawContext) :
    dc.recordAll ops = { dc with fPendingDraws := ⟨dc.fPendingDraws.ops ++ ops⟩ } := by
  induction ops generalizing dc with
  | nil => simp [DrawContext.recordAll]
  | cons op rest ih =>
      rw [DrawContext.recordAll, DrawContext.record_eq, ih]
      simp

theorem DrawContext.snapDrawPass_of_empty (dc : DrawContext) (oc : BoundsManager)
    (h : dc.fPendingDraws.count = 0) : dc.snapDrawPass oc = dc := by
  simp [DrawContext.snapDrawPass, h]

theorem DrawContext.snapDrawPass_of_nonempty (dc : DrawContext) (oc : BoundsManager)
    (h : dc.fPendingDraws.count ≠ 0) :
    dc.snapDrawPass oc =
      { dc with
        fDrawPasses :=
          dc.fDrawPasses ++ [DrawPass.Make dc.fPendingDraws dc.fTarget oc]
        fPendingDraws := DrawList.empty } := by
  simp [DrawContext.snapDrawPass, h]

theorem DrawContext.snapDrawPass_pending (dc : DrawContext) (oc : BoundsManager) :
    (dc.snapDrawPass oc).fPendingDraws.count = 0 := by
  by_cases h : dc.fPendingDraws.count = 0
  · rw [dc.snapDrawPass_of_empty oc h]; exact h
  · rw [dc.snapDrawPass_of_nonempty oc h]; rfl

theorem DrawContext.snapDrawPass_target (dc : DrawContext) (oc : BoundsManager) :
    (dc.snapDrawPass oc).fTarget = dc.fTarget ∧
      (dc.snapDrawPass oc).fImageInfo = dc.fImageInfo := by
  by_cases h : dc.fPendingDraws.count = 0
  · rw [dc.snapDrawPass_of_empty oc h]; exact ⟨rfl, rfl⟩
  · rw [dc.snapDrawPass_of_nonempty oc h]; exact ⟨rfl, rfl⟩

/-- Sample 256×256 target used to instantiate the universally quantified
theorems at concrete inputs. -/
def sampleTarget : TextureProxy := ⟨⟨256, 256⟩⟩

/-- Sample culling oracle. -/
def sampleOracle : BoundsManager := ⟨0⟩

/-- A second sample culling oracle. -/
def sampleOracle2 : BoundsManager := ⟨1⟩

/-- Sample recorded operation (a convex fill). -/
def sampleOp : DrawOp :=
  DrawOp.fillConvexPath ⟨0⟩ ⟨0⟩ ⟨0, 0, 16, 16⟩ ⟨0⟩ none

/-- A second sample recorded operation (a stroke). -/
def sampleOp2 : DrawOp :=
  DrawOp.strokePath ⟨1⟩ ⟨2⟩ ⟨3⟩ ⟨0, 0, 32, 32⟩ ⟨4⟩ (some ⟨5⟩)

/-- A freshly constructed Draw Context over `sampleTarget`, exactly as
`DrawContext.Make` builds it. -/
def sampleDC : DrawContext :=
  { fTarget := sampleTarget
    fImageInfo := SkImageInfo.Make sampleTarget.dimensions ⟨4⟩ ⟨1⟩ none
    fPendingDraws := DrawList.empty
    fDrawPasses := [] }

/-- Claim C1: starting from a freshly constructed Draw Context, recording a
non-empty batch `ops1`, snapping a draw pass, recording a non-empty batch
`ops2` and then snapping the render-pass task yields a task whose pass list is
exactly the two passes built (in snapshot order) from `ops1` and from `ops2`,
each handed to pass construction with the context's target and the oracle in
effect at its snapshot. -/
theorem snapRenderPassTask_two_passes
    (target : TextureProxy) (colorSpace : Option SkColorSpace)
    (colorType : SkColorType) (alphaType : SkAlphaType) (dc0 : DrawContext)
    (ops1 ops2 : List DrawOp) (oc1 oc2 : BoundsManager)
    (hMake : DrawContext.Make (some target) colorSpace colorType alphaType = some dc0)
    (h1 : ops1 ≠ []) (h2 : ops2 ≠ []) :
    ((((dc0.recordAll ops1).snapDrawPass oc1).recordAll ops2).snapRenderPassTask oc2).1 =
      some (RenderPassTask.Make
        [DrawPass.Make ⟨ops1⟩ target oc1, DrawPass.Make ⟨ops2⟩ target oc2]) := by
  simp only [DrawContext.Make, Option.some.injEq] at hMake
  subst hMake
  rw [DrawContext.recordAll_eq ops1, DrawContext.recordAll_eq ops2]
  simp [DrawContext.snapRenderPassTask, DrawContext.snapDrawPass, DrawList.count,
    DrawList.empty, DrawPass.Make, RenderPassTask.Make, h1, h2]

/-- Claim C1 witness: the two-pass snapshot law instantiated on a concrete
context with one operation before and one after the intermediate snap. -/
theorem snapRenderPassTask_two_passes_witness :
    DrawContext.Make (some sampleTarget) none ⟨4⟩ ⟨1⟩ = some sampleDC ∧
    [sampleOp] ≠ ([] : List DrawOp) ∧ [sampleOp2] ≠ ([] : List DrawOp) ∧
    ((((sampleDC.recordAll [sampleOp]).snapDrawPass sampleOracle).recordAll
        [sampleOp2]).snapRenderPassTask sampleOracle2).1 =
      some (RenderPassTask.Make
        [DrawPass.Make ⟨[sampleOp]⟩ sampleTarget sampleOracle,
         DrawPass.Make ⟨[sampleOp2]⟩ sampleTarget sampleOracle2]) :=
  ⟨rfl, by decide, by decide,
    snapRenderPassTask_two_passes sampleTarget none ⟨4⟩ ⟨1⟩ sampleDC
      [sampleOp] [sampleOp2] sampleOracle sampleOracle2 rfl
      (by decide) (by decide)⟩

/-- Claim C2: after any `snapDrawPass` the pending Draw List's count is zero
and the pass sequence has grown by at most one entry (keeping the old passes
as a prefix); when the pending list was non-empty the new pass is appended at
the end and the pending list is replaced by a fresh empty instance. -/
theorem snapDrawPass_post (dc : DrawContext) (oc : BoundsManager) :
    (dc.snapDrawPass oc).fPendingDraws.count = 0 ∧
    (dc.snapDrawPass oc).fDrawPasses.length ≤ dc.fDrawPasses.length + 1 ∧
    dc.fDrawPasses <+: (dc.snapDrawPass oc).fDrawPasses ∧
    (dc.fPendingDraws.count ≠ 0 →
      (dc.snapDrawPass oc).fDrawPasses =
        dc.fDrawPasses ++ [DrawPass.Make dc.fPendingDraws dc.fTarget oc] ∧
      (dc.snapDrawPass oc).fPendingDraws = DrawList.empty) := by
  by_cases h : dc.fPendingDraws.count = 0
  · rw [dc.snapDrawPass_of_empty oc h]
    exact ⟨h, Nat.le_succ _, List.prefix_refl _, fun hc => absurd h hc⟩
  · rw [dc.snapDrawPass_of_nonempty oc h]
    refine ⟨rfl, by simp, ⟨[DrawPass.Make dc.fPendingDraws dc.fTarget oc], rfl⟩,
      fun _ => ⟨rfl, rfl⟩⟩

/-- Claim C2 witness: the `snapDrawPass` postcondition instantiated on a
concrete context holding one pending operation. -/
theorem snapDrawPass_post_witness :
    ((sampleDC.recordAll [sampleOp]).snapDrawPass sampleOracle).fPendingDraws.count = 0 ∧
    (sampleDC.recordAll [sampleOp]).fPendingDraws.count ≠ 0 ∧
    ((sampleDC.recordAll [sampleOp]).snapDrawPass sampleOracle).fDrawPasses =
      (sampleDC.recordAll [sampleOp]).fDrawPasses ++
        [DrawPass.Make (sampleDC.recordAll [sampleOp]).fPendingDraws
          (sampleDC.recordAll [sampleOp]).fTarget sampleOracle] :=
  ⟨(snapDrawPass_post (sampleDC.recordAll [sampleOp]) sampleOracle).1,
   by decide,
   ((snapDrawPass_post (sampleDC.recordAll [sampleOp]) sampleOracle).2.2.2
      (by decide)).1⟩

/-- Claim C3: construction fails exactly on the null target; for every
non-null target it yields a context with empty pending list, empty pass
sequence, and an image description built from the target's dimensions and the
supplied color space/type/alpha type — with no further validation. -/
theorem Make_spec (colorSpace : Option SkColorSpace) (colorType : SkColorType)
    (alphaType : SkAlphaType) :
    (∀ target : Option TextureProxy,
      DrawContext.Make target colorSpace colorType alphaType = none ↔ target = none) ∧
    (∀ t : TextureProxy,
      DrawContext.Make (some t) colorSpace colorType alphaType =
        some { fTarget := t
               fImageInfo := SkImageInfo.Make t.dimensions colorType alphaType colorSpace
               fPendingDraws := DrawList.empty
               fDrawPasses := [] }) := by
  constructor
  · intro target
    cases target <;> simp [DrawContext.Make]
  · intro t
    rfl

/-- Claim C3 witness: construction behavior on the null target and on a
concrete 256×256 target. -/
theorem Make_spec_witness :
    (DrawContext.Make none none ⟨4⟩ ⟨1⟩ = none ↔ (none : Option TextureProxy) = none) ∧
    DrawContext.Make (some sampleTarget) none ⟨4⟩ ⟨1⟩ = some sampleDC :=
  ⟨(Make_spec none ⟨4⟩ ⟨1⟩).1 none, (Make_spec none ⟨4⟩ ⟨1⟩).2 sampleTarget⟩

/-- Claim C4: each of the three recording calls appends exactly its operation
at the end of the pending Draw List, increments the count by one, and leaves
the snapped pass sequence untouched; a whole sequence of recording calls
appends its operations in call order. -/
theorem recording_appends (dc : DrawContext) (l : Transform) (s : Shape)
    (st : StrokeParams) (sc : SkIRect) (o : DrawOrder) (p : Option PaintParams)
    (ops : List DrawOp) :
    (dc.stencilAndFillPath l s sc o p).fPendingDraws.ops =
      dc.fPendingDraws.ops ++ [DrawOp.stencilAndFillPath l s sc o p] ∧
    (dc.stencilAndFillPath l s sc o p).fPendingDraws.count =
      dc.fPendingDraws.count + 1 ∧
    (dc.stencilAndFillPath l s sc o p).fDrawPasses = dc.fDrawPasses ∧
    (dc.fillConvexPath l s sc o p).fPendingDraws.ops =
      dc.fPendingDraws.ops ++ [DrawOp.fillConvexPath l s sc o p] ∧
    (dc.fillConvexPath l s sc o p).fPendingDraws.count =
      dc.fPendingDraws.count + 1 ∧
    (dc.fillConvexPath l s sc o p).fDrawPasses = dc.fDrawPasses ∧
    (dc.strokePath l s st sc o p).fPendingDraws.ops =
      dc.fPendingDraws.ops ++ [DrawOp.strokePath l s st sc o p] ∧
    (dc.strokePath l s st sc o p).fPendingDraws.count =
      dc.fPendingDraws.count + 1 ∧
    (dc.strokePath l s st sc o p).fDrawPasses = dc.fDrawPasses ∧
    (dc.recordAll ops).fPendingDraws.ops = dc.fPendingDraws.ops ++ ops ∧
    (dc.recordAll ops).fDrawPasses = dc.fDrawPasses := by
  refine ⟨rfl, ?_, rfl, rfl, ?_, rfl, rfl, ?_, rfl, ?_, ?_⟩
  · simp [DrawContext.stencilAndFillPath, DrawList.stencilAndFillPath, DrawList.count]
  · simp [DrawContext.fillConvexPath, DrawList.fillConvexPath, DrawList.count]
  · simp [DrawContext.strokePath, DrawList.strokePath, DrawList.count]
  · rw [DrawContext.recordAll_eq]
  · rw [DrawContext.recordAll_eq]

/-- Claim C5: on a Draw Context with nothing recorded across its lifetime
(empty pending list and empty pass sequence), `snapRenderPassTask` returns no
task and leaves the context unchanged. -/
theorem snapRenderPassTask_empty (dc : DrawContext) (oc : BoundsManager)
    (hp : dc.fPendingDraws.count = 0) (hd : dc.fDrawPasses = []) :
    dc.snapRenderPassTask oc = (none, dc) := by
  simp [DrawContext.snapRenderPassTask, dc.snapDrawPass_of_empty oc hp, hd]

/-- Claim C5 witness: the empty-lifetime law instantiated on a freshly
constructed context. -/
theorem snapRenderPassTask_empty_witness :
    sampleDC.fPendingDraws.count = 0 ∧ sampleDC.fDrawPasses = [] ∧
    sampleDC.snapRenderPassTask sampleOracle = (none, sampleDC) :=
  ⟨by decide, by decide,
    snapRenderPassTask_empty sampleDC sampleOracle (by decide) (by decide)⟩

/-- Claim C6: after `snapRenderPassTask` returns — with or without a task —
the pending Draw List and the pass sequence are both empty. -/
theorem snapRenderPassTask_drains (dc : DrawContext) (oc : BoundsManager) :
    ((dc.snapRenderPassTask oc).2).fPendingDraws.count = 0 ∧
    ((dc.snapRenderPassTask oc).2).fDrawPasses = [] := by
  simp only [DrawContext.snapRenderPassTask]
  by_cases h : (dc.snapDrawPass oc).fDrawPasses.isEmpty
  · simp only [h, if_true]
    exact ⟨dc.snapDrawPass_pending oc, List.isEmpty_iff.mp h⟩
  · simp only [h, if_false]
    exact ⟨dc.snapDrawPass_pending oc, rfl⟩

/-- Claim C7: `snapDrawPass` on an empty pending list is the identity, and two
consecutive `snapDrawPass` calls with nothing recorded in between leave the
context exactly as a single call does. -/
theorem snapDrawPass_idempotent (dc : DrawContext) (oc oc2 : BoundsManager) :
    (dc.fPendingDraws.count = 0 → dc.snapDrawPass oc = dc) ∧
    (dc.snapDrawPass oc).snapDrawPass oc2 = dc.snapDrawPass oc := by
  refine ⟨dc.snapDrawPass_of_empty oc, ?_⟩
  exact (dc.snapDrawPass oc).snapDrawPass_of_empty oc2 (dc.snapDrawPass_pending oc)

/-- Claim C7 witness: the no-op and idempotence laws on a concrete context
with one pending operation. -/
theorem snapDrawPass_idempotent_witness :
    sampleDC.fPendingDraws.count = 0 ∧ sampleDC.snapDrawPass sampleOracle = sampleDC ∧
    ((sampleDC.recordAll [sampleOp]).snapDrawPass sampleOracle).snapDrawPass sampleOracle2 =
      (sampleDC.recordAll [sampleOp]).snapDrawPass sampleOracle :=
  ⟨by decide,
   (snapDrawPass_idempotent sampleDC sampleOracle sampleOracle2).1 (by decide),
   (snapDrawPass_idempotent (sampleDC.recordAll [sampleOp]) sampleOracle
      sampleOracle2).2⟩

/-- Claim C8: any context with pending work or un-harvested passes fails the
destructor's assertions, and every context left behind by
`snapRenderPassTask` passes them. -/
theorem destructor_invariant :
    (∀ dc : DrawContext,
      dc.fPendingDraws.count ≠ 0 ∨ dc.fDrawPasses ≠ [] →
        dc.destructorAssertsHold = false) ∧
    (∀ (dc : DrawContext) (oc : BoundsManager),
      ((dc.snapRenderPassTask oc).2).destructorAssertsHold = true) := by
  constructor
  · intro dc h
    rcases h with h | h
    · have hc : (dc.fPendingDraws.count == 0) = false := by simpa using h
      simp [DrawContext.destructorAssertsHold, hc]
    · have hc : dc.fDrawPasses.isEmpty = false := by
        cases hl : dc.fDrawPasses with
        | nil => exact absurd hl h
        | cons a l => rfl
      simp [DrawContext.destructorAssertsHold, hc]
  · intro dc oc
    simp only [DrawContext.snapRenderPassTask]
    by_cases h : (dc.snapDrawPass oc).fDrawPasses.isEmpty
    · simp only [h, if_true]
      simp [DrawContext.destructorAssertsHold, dc.snapDrawPass_pending oc, h]
    · simp only [h, if_false]
      simp [DrawContext.destructorAssertsHold, dc.snapDrawPass_pending oc]

/-- Claim C8 witness: the assertions fail on a context with one pending
operation and hold after harvesting via `snapRenderPassTask`. -/
theorem destructor_invariant_witness :
    (sampleDC.recordAll [sampleOp]).destructorAssertsHold = false ∧
    (((sampleDC.recordAll [sampleOp]).snapRenderPassTask
        sampleOracle).2).destructorAssertsHold = true :=
  ⟨destructor_invariant.1 (sampleDC.recordAll [sampleOp]) (Or.inl (by decide)),
   destructor_invariant.2 (sampleDC.recordAll [sampleOp]) sampleOracle⟩

/-- Claim C9: recording calls (any of the three entry points) and both
snapshot operations never change the context's target reference or image
description. -/
theorem frame_target_imageInfo (dc : DrawContext) (op : DrawOp)
    (oc : BoundsManager) :
    (dc.record op).fTarget = dc.fTarget ∧
    (dc.record op).fImageInfo = dc.fImageInfo ∧
    (dc.snapDrawPass oc).fTarget = dc.fTarget ∧
    (dc.snapDrawPass oc).fImageInfo = dc.fImageInfo ∧
    ((dc.snapRenderPassTask oc).2).fTarget = dc.fTarget ∧
    ((dc.snapRenderPassTask oc).2).fImageInfo = dc.fImageInfo := by
  have hrec := dc.record_eq op
  have hsnap := dc.snapDrawPass_target oc
  refine ⟨by rw [hrec], by rw [hrec], hsnap.1, hsnap.2, ?_, ?_⟩ <;>
    · simp only [DrawContext.snapRenderPassTask]
      by_cases h : (dc.snapDrawPass oc).fDrawPasses.isEmpty <;>
        simp [h, hsnap.1, hsnap.2]

end skgpu

namespace SkSL

namespace dsl

/-- Claim C10: `EndRuntimeShader` returns a null effect handle whenever
releasing the DSL program yields no program, and `End()` is invoked (as the
final collaborator call) on every path, whether or not an effect was
produced. -/
theorem EndRuntimeShader_spec (releasedProgram : Option Program)
    (makeForShader : Program → SkRuntimeEffect.Options → Option SkRuntimeEffect)
    (options : SkRuntimeEffect.Options) :
    (releasedProgram = none →
      (EndRuntimeShader releasedProgram makeForShader options).1 = none) ∧
    (EndRuntimeShader releasedProgram makeForShader options).2.getLast? =
      some DSLCall.endContext := by
  cases releasedProgram <;>
    simp [EndRuntimeShader]

/-- Claim C10 witness: the teardown law instantiated on the no-program path
with a collaborator that always fails. -/
theorem EndRuntimeShader_spec_witness :
    (EndRuntimeShader none (fun _ _ => none) ⟨0⟩).1 = none ∧
    (EndRuntimeShader none (fun _ _ => none) ⟨0⟩).2.getLast? =
      some DSLCall.endContext :=
  ⟨(EndRuntimeShader_spec none (fun _ _ => none) ⟨0⟩).1 rfl,
   (EndRuntimeShader_spec none (fun _ _ => none) ⟨0⟩).2⟩

end dsl

end SkSL
